import Mathlib

/-!
Shallow embedding of `src/landmark_detector.py` (PoseVision-Real-Time-Landmark-Tracker).

The program is the single class `LandmarkDetectorGUI`.  External libraries
(OpenCV, MediaPipe, CustomTkinter) are modelled as abstract data and as
function parameters bundled in `Externals`; the original control logic of the
class is translated method by method.  Floating-point landmark coordinates
and the camera FPS are modelled as rationals; Python `int()` truncation
toward zero is `pyTrunc`.
-/

namespace PoseVision

/-- A single landmark produced by the pose-estimation library:
a 3D coordinate. -/
structure Landmark where
  x : ℚ
  y : ℚ
  z : ℚ
deriving Repr, DecidableEq

/-- `results.pose_landmarks.landmark`: the indexed collection of pose
landmarks (MediaPipe guarantees all 33 pose indices are populated, so we
model it as a total function on indices). -/
structure PoseLandmarks where
  landmark : Nat → Landmark

/-- An opaque face-landmark collection (only its presence matters to the
orchestration code). -/
structure FaceLandmarks where
  fdata : Nat
deriving Repr, DecidableEq

/-- An opaque hand-landmark collection (only its presence matters to the
orchestration code). -/
structure HandLandmarks where
  hdata : Nat
deriving Repr, DecidableEq

/-- The detection results object returned by `self.holistic.process`:
each landmark group is optional (`None` in Python when not detected). -/
structure Results where
  face_landmarks : Option FaceLandmarks
  right_hand_landmarks : Option HandLandmarks
  left_hand_landmarks : Option HandLandmarks
  pose_landmarks : Option PoseLandmarks

/-- `mp.solutions.holistic.PoseLandmark.RIGHT_SHOULDER.value` -/
def RIGHT_SHOULDER : Nat := 12

/-- `mp.solutions.holistic.PoseLandmark.RIGHT_WRIST.value` -/
def RIGHT_WRIST : Nat := 16

/-- `mp.solutions.holistic.PoseLandmark.LEFT_SHOULDER.value` -/
def LEFT_SHOULDER : Nat := 11

/-- `mp.solutions.holistic.PoseLandmark.LEFT_WRIST.value` -/
def LEFT_WRIST : Nat := 15

/-- `LandmarkDetectorGUI.detect_action` (lines 166-183).  The argument is
`Option Results`: `none` models the Python value `None` (the guard
`if not results or not results.pose_landmarks` checks both). -/
def detect_action (results : Option Results) : String :=
  match results with
  | none => "None"
  | some r =>
    match r.pose_landmarks with
    | none => "None"
    | some pl =>
      let right_shoulder := (pl.landmark RIGHT_SHOULDER).y
      let right_wrist := (pl.landmark RIGHT_WRIST).y
      let left_shoulder := (pl.landmark LEFT_SHOULDER).y
      let left_wrist := (pl.landmark LEFT_WRIST).y
      if right_wrist < right_shoulder - 2/10 then
        "Raising Right Hand"
      else if left_wrist < left_shoulder - 2/10 then
        "Raising Left Hand"
      else
        "Standing"

/-- A concrete pose-landmark set whose four relevant y-coordinates can be
chosen freely; every other coordinate is zero. -/
def mkPose (rsY rwY lsY lwY : ℚ) : PoseLandmarks :=
  ⟨fun i =>
    if i = RIGHT_SHOULDER then ⟨0, rsY, 0⟩
    else if i = RIGHT_WRIST then ⟨0, rwY, 0⟩
    else if i = LEFT_SHOULDER then ⟨0, lsY, 0⟩
    else if i = LEFT_WRIST then ⟨0, lwY, 0⟩
    else ⟨0, 0, 0⟩⟩

/-- A results object holding only the given pose landmarks. -/
def mkResults (pl : PoseLandmarks) : Results :=
  ⟨none, none, none, some pl⟩

/-- A camera/image frame (`np.ndarray`), abstract. -/
structure Frame where
  pixels : Nat
deriving Repr, DecidableEq

/-- The external library calls made inside `process_frame`'s `try` block
(OpenCV colour conversion, the MediaPipe holistic model, and
`mp_drawing.draw_landmarks` for each landmark group).  Each may raise an
exception, modelled as `Except String`. -/
structure Externals where
  cvtColor_BGR2RGB : Frame → Except String Frame
  holistic_process : Frame → Except String Results
  cvtColor_RGB2BGR : Frame → Except String Frame
  draw_face : Frame → FaceLandmarks → Except String Frame
  draw_right_hand : Frame → HandLandmarks → Except String Frame
  draw_left_hand : Frame → HandLandmarks → Except String Frame
  draw_pose : Frame → PoseLandmarks → Except String Frame

/-- `LandmarkDetectorGUI._draw_landmarks` (lines 151-164): draw each landmark
group onto the image when it is present (in-place mutation modelled as
returning the updated image). -/
def draw_landmarks_all (E : Externals) (image : Frame) (results : Results) :
    Except String Frame := do
  let image ← match results.face_landmarks with
    | some f => E.draw_face image f
    | none => pure image
  let image ← match results.right_hand_landmarks with
    | some h => E.draw_right_hand image h
    | none => pure image
  let image ← match results.left_hand_landmarks with
    | some h => E.draw_left_hand image h
    | none => pure image
  match results.pose_landmarks with
    | some p => E.draw_pose image p
    | none => pure image

/-- The body of `process_frame`'s `try` block (lines 139-144): convert to
RGB, run the holistic model, convert back, draw the landmarks, and return
the annotated image with the results. -/
def process_frame_run (E : Externals) (frame : Frame) :
    Except String (Frame × Results) := do
  let image ← E.cvtColor_BGR2RGB frame
  let results ← E.holistic_process image
  let image2 ← E.cvtColor_RGB2BGR image
  let image3 ← draw_landmarks_all E image2 results
  pure (image3, results)

/-- The value returned by `LandmarkDetectorGUI.process_frame`
(lines 137-149): the annotated image with the results on success, and
`(frame, None)` when any step raises. -/
def process_frame (E : Externals) (frame : Frame) : Frame × Option Results :=
  match process_frame_run E frame with
  | .ok (img, res) => (img, some res)
  | .error _ => (frame, none)

/-- A `cv2.VideoWriter`: the construction parameters and the list of frames
written so far. -/
structure VideoWriter where
  fps : Int
  frame_width : Int
  frame_height : Int
  frames : List Frame
deriving Repr, DecidableEq

/-- Python `int(q)` on a float: truncation toward zero. -/
def pyTrunc (q : ℚ) : Int :=
  if 0 ≤ q then ⌊q⌋ else ⌈q⌉

/-- The mutable state of a `LandmarkDetectorGUI` instance.  `last_frame` and
`last_results` are `none` while the Python attribute does not exist yet
(`hasattr` fails); `last_results = some none` models the attribute holding
the Python value `None`. -/
structure AppState where
  running : Bool
  cap_opened : Bool
  recording : Bool
  video_writer : Option VideoWriter
  last_frame : Option Frame
  last_results : Option (Option Results)
  action_label : String
  status_label : String
  status_color : String
  record_button_text : String
  video_label : Option Frame
  saved_images : List (String × Frame)
  fps : Int
  frame_width : Int
  frame_height : Int

/-- `LandmarkDetectorGUI.__init__` (lines 22-100), restricted to the state
fields above.  `cam_fps` is the float the camera reports for
`cv2.CAP_PROP_FPS`; `cam_w`, `cam_h` those for frame width and height;
`opened` is whether the capture device opened. -/
def init_state (cam_fps cam_w cam_h : ℚ) (opened : Bool) : AppState :=
  { running := true
    cap_opened := opened
    recording := false
    video_writer := none
    last_frame := none
    last_results := none
    action_label := "Action: None"
    status_label := "Ready"
    status_color := "gray"
    record_button_text := "Start Recording"
    video_label := none
    saved_images := []
    fps := if pyTrunc cam_fps = 0 then 30 else pyTrunc cam_fps
    frame_width := pyTrunc cam_w
    frame_height := pyTrunc cam_h }

/-- `LandmarkDetectorGUI.toggle_recording` (lines 199-220).  `filename` is
the timestamped name computed at line 203. -/
def toggle_recording (filename : String) (s : AppState) : AppState :=
  if !s.recording then
    { s with
      video_writer := some ({ fps := s.fps, frame_width := s.frame_width,
                              frame_height := s.frame_height, frames := [] })
      recording := true
      record_button_text := "Stop Recording"
      status_label := "Recording: " ++ filename
      status_color := "red" }
  else
    let s1 := { s with recording := false }
    let s2 := match s1.video_writer with
      | some _ => { s1 with video_writer := none }
      | none => s1
    { s2 with
      record_button_text := "Start Recording"
      status_label := "Recording stopped"
      status_color := "green" }

/-- `LandmarkDetectorGUI.capture_image` (lines 185-197).  `filename` is the
timestamped name computed at line 189.  An `AttributeError` escaping the
Tkinter callback is modelled as `Except.error`; note that when
`last_results` holds Python `None`, evaluating
`self.last_results.pose_landmarks` raises. -/
def capture_image (filename : String) (s : AppState) : Except String AppState :=
  match s.last_results with
  | none =>
      .ok { s with status_label := "No pose detected!", status_color := "orange" }
  | some none =>
      .error "AttributeError: NoneType has no attribute pose_landmarks"
  | some (some res) =>
      match res.pose_landmarks with
      | some _ =>
          match s.last_frame with
          | some f =>
              .ok { s with
                saved_images := s.saved_images ++ [(filename, f)]
                status_label := "Saved: " ++ filename
                status_color := "green" }
          | none => .error "AttributeError: no attribute last_frame"
      | none =>
          .ok { s with status_label := "No pose detected!", status_color := "orange" }

/-- `LandmarkDetectorGUI.update_frame` (lines 222-257), one iteration.
`read` is the outcome of `self.cap.read()`: `some frame` when `ret` is
true, `none` otherwise.  The `self.root.after` rescheduling is outside the
state model. -/
def update_frame (E : Externals) (read : Option Frame) (s : AppState) : AppState :=
  if s.running && s.cap_opened then
    match read with
    | none => s
    | some frame =>
      -- processed_frame, results = self.process_frame(frame);
      -- the except branch also sets the status label (lines 147-148)
      let s1 := match process_frame_run E frame with
        | .ok _ => s
        | .error e => { s with status_label := "Error: " ++ e, status_color := "red" }
      let processed_frame := (process_frame E frame).1
      let results := (process_frame E frame).2
      let s2 := { s1 with last_frame := some processed_frame,
                          last_results := some results }
      let s3 := if s2.recording then
          match s2.video_writer with
          | some w =>
              { s2 with video_writer := some ({ w with frames := w.frames ++ [processed_frame] }) }
          | none => s2
        else s2
      let s4 := { s3 with action_label := "Action: " ++ detect_action results }
      let s5 := { s4 with video_label := some processed_frame }
      if !s5.recording then
        match results with
        | some r =>
            if r.pose_landmarks.isSome then
              { s5 with status_label := "Pose detected", status_color := "green" }
            else
              { s5 with status_label := "No pose detected", status_color := "gray" }
        | none =>
            { s5 with status_label := "No pose detected", status_color := "gray" }
      else s5
  else s

/-- A pose-landmark set with the same four relevant y-coordinates as
`mkPose` but different x and z coordinates and different remaining
landmarks. -/
def mkPoseAlt (rsY rwY lsY lwY : ℚ) : PoseLandmarks :=
  ⟨fun i =>
    if i = RIGHT_SHOULDER then ⟨3, rsY, 4⟩
    else if i = RIGHT_WRIST then ⟨5, rwY, 6⟩
    else if i = LEFT_SHOULDER then ⟨7, lsY, 8⟩
    else if i = LEFT_WRIST then ⟨9, lwY, 10⟩
    else ⟨11, 12, 13⟩⟩

/-- External libraries that behave: colour conversion and drawing are the
identity and the holistic model reports no landmarks. -/
def okExternals : Externals :=
  { cvtColor_BGR2RGB := fun f => .ok f
    holistic_process := fun _ => .ok ⟨none, none, none, none⟩
    cvtColor_RGB2BGR := fun f => .ok f
    draw_face := fun f _ => .ok f
    draw_right_hand := fun f _ => .ok f
    draw_left_hand := fun f _ => .ok f
    draw_pose := fun f _ => .ok f }

/-- External libraries where the holistic model raises on every frame. -/
def failingExternals : Externals :=
  { cvtColor_BGR2RGB := fun f => .ok f
    holistic_process := fun _ => .error "model failure"
    cvtColor_RGB2BGR := fun f => .ok f
    draw_face := fun f _ => .ok f
    draw_right_hand := fun f _ => .ok f
    draw_left_hand := fun f _ => .ok f
    draw_pose := fun f _ => .ok f }

/-- A concrete application state: fresh instance, camera open, not
recording. -/
def baseState : AppState :=
  { running := true
    cap_opened := true
    recording := false
    video_writer := none
    last_frame := none
    last_results := none
    action_label := "Action: None"
    status_label := "Ready"
    status_color := "gray"
    record_button_text := "Start Recording"
    video_label := none
    saved_images := []
    fps := 30
    frame_width := 640
    frame_height := 480 }

/-- A concrete application state in the middle of a recording: the user
has pressed "Start Recording" and no frame has been written yet. -/
def recState0 : AppState :=
  { baseState with
    recording := true
    video_writer := some ⟨30, 640, 480, []⟩
    record_button_text := "Stop Recording"
    status_label := "Recording: rec.mp4"
    status_color := "red" }

/-- A concrete detection result whose pose landmarks are present. -/
def capResults : Results := mkResults (mkPose 0 0 0 0)

/-- A concrete application state after a frame with a detected pose has
been processed. -/
def capState : AppState :=
  { baseState with
    last_frame := some ⟨9⟩
    last_results := some (some capResults) }

/-- The consistency between the recording flag and the video writer:
`recording` is true exactly when a writer object is held. -/
def recording_consistent (s : AppState) : Prop :=
  s.recording = true ↔ s.video_writer ≠ none

/-! Theorems for the claims. -/

/-- C1: for every detection result with pose landmarks, `detect_action`
returns "Raising Right Hand" when the right wrist's y is below the right
shoulder's y minus 0.2; otherwise "Raising Left Hand" when the left wrist's
y is below the left shoulder's y minus 0.2; otherwise "Standing"; and when
both wrists satisfy their threshold the right-hand label takes
precedence. -/
theorem detect_action_threshold_cases (r : Results) (pl : PoseLandmarks)
    (h : r.pose_landmarks = some pl) :
    ((pl.landmark RIGHT_WRIST).y < (pl.landmark RIGHT_SHOULDER).y - 2/10 →
      detect_action (some r) = "Raising Right Hand")
    ∧ (¬ (pl.landmark RIGHT_WRIST).y < (pl.landmark RIGHT_SHOULDER).y - 2/10 →
      (pl.landmark LEFT_WRIST).y < (pl.landmark LEFT_SHOULDER).y - 2/10 →
      detect_action (some r) = "Raising Left Hand")
    ∧ (¬ (pl.landmark RIGHT_WRIST).y < (pl.landmark RIGHT_SHOULDER).y - 2/10 →
      ¬ (pl.landmark LEFT_WRIST).y < (pl.landmark LEFT_SHOULDER).y - 2/10 →
      detect_action (some r) = "Standing")
    ∧ ((pl.landmark RIGHT_WRIST).y < (pl.landmark RIGHT_SHOULDER).y - 2/10 →
      (pl.landmark LEFT_WRIST).y < (pl.landmark LEFT_SHOULDER).y - 2/10 →
      detect_action (some r) = "Raising Right Hand") := by
  refine ⟨fun h1 => ?_, fun h1 h2 => ?_, fun h1 h2 => ?_, fun h1 _ => ?_⟩ <;>
      simp only [detect_action, h]
  · rw [if_pos h1]
  · rw [if_neg h1, if_pos h2]
  · rw [if_neg h1, if_neg h2]
  · rw [if_pos h1]

/-- C1 witness: a concrete pose with the right wrist 0.4 above the right
shoulder is classified "Raising Right Hand". -/
theorem detect_action_threshold_cases_witness :
    detect_action (some (mkResults (mkPose (5/10) (1/10) (5/10) (5/10)))) =
      "Raising Right Hand" :=
  (detect_action_threshold_cases (mkResults (mkPose (5/10) (1/10) (5/10) (5/10)))
      (mkPose (5/10) (1/10) (5/10) (5/10)) rfl).1
    (by norm_num [mkPose, RIGHT_WRIST, RIGHT_SHOULDER])

/-- C2 counterexample: on input `None`, `detect_action` returns the string
"None", which is none of the three labels, so the result is not always one
of "Raising Right Hand", "Raising Left Hand", "Standing". -/
theorem detect_action_none_not_three_labels :
    detect_action none ≠ "Raising Right Hand" ∧
    detect_action none ≠ "Raising Left Hand" ∧
    detect_action none ≠ "Standing" := by
  refine ⟨?_, ?_, ?_⟩ <;> simp [detect_action]

/-- C2 amended: `detect_action` always returns one of the four strings
"None", "Raising Right Hand", "Raising Left Hand", "Standing", and on
every input whose results contain pose landmarks it decides between the
three action labels. -/
theorem detect_action_label_range (o : Option Results) :
    (detect_action o = "None" ∨ detect_action o = "Raising Right Hand" ∨
      detect_action o = "Raising Left Hand" ∨ detect_action o = "Standing")
    ∧ (∀ r pl, o = some r → r.pose_landmarks = some pl →
      detect_action o = "Raising Right Hand" ∨
      detect_action o = "Raising Left Hand" ∨
      detect_action o = "Standing") := by
  constructor
  · cases o with
    | none => exact Or.inl rfl
    | some r =>
      cases hp : r.pose_landmarks with
      | none => simp [detect_action, hp]
      | some pl =>
        simp only [detect_action, hp]
        split
        · exact Or.inr (Or.inl rfl)
        · split
          · exact Or.inr (Or.inr (Or.inl rfl))
          · exact Or.inr (Or.inr (Or.inr rfl))
  · rintro r pl rfl hp
    simp only [detect_action, hp]
    split
    · exact Or.inl rfl
    · split
      · exact Or.inr (Or.inl rfl)
      · exact Or.inr (Or.inr rfl)

/-- C2 witness: on a concrete result with pose landmarks the label is one
of the three action labels. -/
theorem detect_action_label_range_witness :
    detect_action (some (mkResults (mkPose 0 0 0 0))) = "Raising Right Hand" ∨
    detect_action (some (mkResults (mkPose 0 0 0 0))) = "Raising Left Hand" ∨
    detect_action (some (mkResults (mkPose 0 0 0 0))) = "Standing" :=
  (detect_action_label_range (some (mkResults (mkPose 0 0 0 0)))).2
    (mkResults (mkPose 0 0 0 0)) (mkPose 0 0 0 0) rfl rfl

/-- C3: `detect_action` returns "None" when the results object is absent
or its pose landmarks are absent, without touching any landmark
coordinate. -/
theorem detect_action_missing_guard :
    detect_action none = "None" ∧
    ∀ r : Results, r.pose_landmarks = none → detect_action (some r) = "None" := by
  refine ⟨rfl, fun r h => ?_⟩
  simp [detect_action, h]

/-- C3 witness: a concrete result with no pose landmarks yields "None". -/
theorem detect_action_missing_guard_witness :
    detect_action (some ⟨none, none, none, none⟩) = "None" :=
  detect_action_missing_guard.2 ⟨none, none, none, none⟩ rfl

/-- C6: the classifier's output depends only on the y-coordinates of the
right shoulder, right wrist, left shoulder and left wrist: two results
with pose landmarks agreeing on those four y-values get the same label,
whatever every other coordinate and landmark is. -/
theorem detect_action_depends_only_on_four_y (r1 r2 : Results)
    (p1 p2 : PoseLandmarks)
    (h1 : r1.pose_landmarks = some p1) (h2 : r2.pose_landmarks = some p2)
    (hrs : (p1.landmark RIGHT_SHOULDER).y = (p2.landmark RIGHT_SHOULDER).y)
    (hrw : (p1.landmark RIGHT_WRIST).y = (p2.landmark RIGHT_WRIST).y)
    (hls : (p1.landmark LEFT_SHOULDER).y = (p2.landmark LEFT_SHOULDER).y)
    (hlw : (p1.landmark LEFT_WRIST).y = (p2.landmark LEFT_WRIST).y) :
    detect_action (some r1) = detect_action (some r2) := by
  simp only [detect_action, h1, h2, hrs, hrw, hls, hlw]

/-- C6 witness: two concrete results that differ in every x and z
coordinate, in all other landmarks, and in the presence of face and hand
landmarks, but agree on the four relevant y-values, receive the same
label. -/
theorem detect_action_depends_only_on_four_y_witness :
    detect_action (some (mkResults (mkPose (5/10) (1/10) (6/10) (7/10)))) =
      detect_action (some ⟨some ⟨1⟩, some ⟨2⟩, some ⟨3⟩,
        some (mkPoseAlt (5/10) (1/10) (6/10) (7/10))⟩) :=
  detect_action_depends_only_on_four_y _ _ _ _ rfl rfl rfl rfl rfl rfl

/-- C4: `process_frame` either returns the annotated image paired with the
detection results (exactly the successful outcome of the `try` block), or,
when any step raises, returns the original input frame unchanged paired
with `None`; no other outcome is possible. -/
theorem process_frame_total_fallback (E : Externals) (frame : Frame) :
    (∃ img res, process_frame_run E frame = .ok (img, res) ∧
      process_frame E frame = (img, some res))
    ∨ (∃ e, process_frame_run E frame = .error e ∧
      process_frame E frame = (frame, none)) := by
  cases h : process_frame_run E frame with
  | ok p =>
    obtain ⟨img, res⟩ := p
    exact Or.inl ⟨img, res, rfl, by simp [process_frame, h]⟩
  | error e =>
    exact Or.inr ⟨e, rfl, by simp [process_frame, h]⟩

/-- C9: the recording-state invariant `recording ↔ video_writer ≠ None`
holds after `__init__` and after every call to `toggle_recording` (from any
state), and each call to `toggle_recording` flips the recording flag, so
two consecutive calls restore it. -/
theorem recording_writer_invariant :
    (∀ cam_fps cam_w cam_h opened,
      recording_consistent (init_state cam_fps cam_w cam_h opened))
    ∧ (∀ fn s, recording_consistent (toggle_recording fn s))
    ∧ (∀ fn s, (toggle_recording fn s).recording = !s.recording)
    ∧ (∀ fn1 fn2 s,
      (toggle_recording fn2 (toggle_recording fn1 s)).recording = s.recording) := by
  have hinv : ∀ fn s, recording_consistent (toggle_recording fn s) := by
    intro fn s
    cases hrec : s.recording with
    | false => simp [toggle_recording, recording_consistent, hrec]
    | true =>
      cases hw : s.video_writer <;>
        simp [toggle_recording, recording_consistent, hrec, hw]
  have hflip : ∀ fn s, (toggle_recording fn s).recording = !s.recording := by
    intro fn s
    cases hrec : s.recording with
    | false => simp [toggle_recording, hrec]
    | true =>
      cases hw : s.video_writer <;> simp [toggle_recording, hrec, hw]
  refine ⟨fun cam_fps cam_w cam_h opened => ?_, hinv, hflip, fun fn1 fn2 s => ?_⟩
  · simp [init_state, recording_consistent]
  · rw [hflip, hflip, Bool.not_not]

/-- C10 counterexample: a camera reporting -5 FPS gives `fps = -5` (the
`or 30` fallback only replaces a zero truncation), so the video writer is
constructed with a negative, not positive, frame rate. -/
theorem init_fps_negative_counterexample :
    (init_state (-5) 640 480 true).fps = -5
    ∧ ¬ 0 < (init_state (-5) 640 480 true).fps
    ∧ (toggle_recording "rec.mp4" (init_state (-5) 640 480 true)).video_writer =
        some ⟨-5, 640, 480, []⟩ := by
  have htr : pyTrunc (-5) = -5 := by
    rw [pyTrunc, if_neg (by norm_num)]
    rw [show ((-5 : ℚ)) = ((-5 : ℤ) : ℚ) by norm_num, Int.ceil_intCast]
  have hfps : (init_state (-5) 640 480 true).fps = -5 := by
    simp [init_state, htr]
  have hw : pyTrunc (640 : ℚ) = 640 := by
    rw [pyTrunc, if_pos (by norm_num)]
    rw [show ((640 : ℚ)) = ((640 : ℤ) : ℚ) by norm_num, Int.floor_intCast]
  have hh : pyTrunc (480 : ℚ) = 480 := by
    rw [pyTrunc, if_pos (by norm_num)]
    rw [show ((480 : ℚ)) = ((480 : ℤ) : ℚ) by norm_num, Int.floor_intCast]
  refine ⟨hfps, by rw [hfps]; norm_num, ?_⟩
  simp [toggle_recording, init_state, htr, hw, hh]

/-- C10 amended: `fps` equals the truncation of the camera's reported FPS
when that truncation is nonzero and 30 otherwise; it is never zero, and it
is positive whenever the camera reports a nonnegative FPS (in particular
when the report is unavailable, i.e. 0, or below 1); the video writer is
constructed with exactly this frame rate. -/
theorem init_fps_spec (cam_fps cam_w cam_h : ℚ) (opened : Bool) :
    (init_state cam_fps cam_w cam_h opened).fps =
      (if pyTrunc cam_fps = 0 then 30 else pyTrunc cam_fps)
    ∧ (init_state cam_fps cam_w cam_h opened).fps ≠ 0
    ∧ (0 ≤ cam_fps → 0 < (init_state cam_fps cam_w cam_h opened).fps)
    ∧ (∀ fn w,
      (toggle_recording fn (init_state cam_fps cam_w cam_h opened)).video_writer =
        some w → w.fps = (init_state cam_fps cam_w cam_h opened).fps) := by
  refine ⟨rfl, ?_, ?_, ?_⟩
  · show (if pyTrunc cam_fps = 0 then 30 else pyTrunc cam_fps) ≠ 0
    split
    · norm_num
    · assumption
  · intro hnn
    show 0 < (if pyTrunc cam_fps = 0 then 30 else pyTrunc cam_fps)
    have hfl : pyTrunc cam_fps = ⌊cam_fps⌋ := if_pos hnn
    have h0 : 0 ≤ pyTrunc cam_fps := by
      rw [hfl]
      exact Int.floor_nonneg.mpr hnn
    split
    · norm_num
    · omega
  · intro fn w hw
    have : (toggle_recording fn (init_state cam_fps cam_w cam_h opened)).video_writer =
        some ⟨(init_state cam_fps cam_w cam_h opened).fps,
              (init_state cam_fps cam_w cam_h opened).frame_width,
              (init_state cam_fps cam_w cam_h opened).frame_height, []⟩ := by
      simp [toggle_recording, init_state]
    rw [this] at hw
    cases hw
    rfl

/-- C10 amended witness: a camera reporting 0.5 FPS yields the fallback 30,
a positive frame rate. -/
theorem init_fps_spec_witness : 0 < (init_state (1/2) 640 480 true).fps :=
  (init_fps_spec (1/2) 640 480 true).2.2.1 (by norm_num)

/-- C5 counterexample: when processing raises (here the holistic model
fails), `process_frame` returns the raw camera frame with no overlays, and
a recording `update_frame` iteration writes exactly that raw frame to the
video writer — so the frame written is not always the annotated one. -/
theorem update_frame_records_raw_on_failure :
    process_frame failingExternals ⟨7⟩ = (⟨7⟩, none)
    ∧ (update_frame failingExternals (some ⟨7⟩) recState0).video_writer =
        some ⟨30, 640, 480, [⟨7⟩]⟩ :=
  ⟨rfl, rfl⟩

/-- C5 amended: on every `update_frame` iteration where a frame is read
while recording is active and a video writer exists, the frame appended to
the writer is the frame returned by `process_frame`: the annotated image
whenever processing succeeds (and the raw input frame only when processing
raises). -/
theorem update_frame_writes_processed_frame (E : Externals) (s : AppState)
    (f : Frame) (w : VideoWriter)
    (hr : s.running = true) (hc : s.cap_opened = true)
    (hrec : s.recording = true) (hw : s.video_writer = some w) :
    (update_frame E (some f) s).video_writer =
      some ({ w with frames := w.frames ++ [(process_frame E f).1] })
    ∧ ∀ img res, process_frame_run E f = .ok (img, res) →
      (process_frame E f).1 = img := by
  constructor
  · cases hpr : process_frame_run E f with
    | ok p =>
      obtain ⟨img, res⟩ := p
      simp [update_frame, process_frame, hr, hc, hrec, hw, hpr]
    | error e =>
      simp [update_frame, process_frame, hr, hc, hrec, hw, hpr]
  · intro img res hpr
    simp [process_frame, hpr]

/-- C5 amended witness: with well-behaved externals, the recording
iteration appends the processed frame to the writer. -/
theorem update_frame_writes_processed_frame_witness :
    (update_frame okExternals (some ⟨7⟩) recState0).video_writer =
      some ⟨30, 640, 480, [⟨7⟩]⟩ :=
  ((update_frame_writes_processed_frame okExternals recState0 ⟨7⟩ ⟨30, 640, 480, []⟩
      rfl rfl rfl rfl).1).trans rfl

/-- C7: on every `update_frame` iteration where a frame is read, the loop
stores the processed frame and results as `last_frame` and `last_results`,
appends the processed frame to the video writer exactly when recording
with a writer, sets the action label from `detect_action` on the results,
and updates the GUI frame; and no other operation captures a frame,
records a frame, or classifies: `toggle_recording` never appends a frame
to a writer and leaves `last_frame`, `last_results` and the action label
alone, and `capture_image` leaves them and the writer and GUI frame
alone. -/
theorem update_frame_single_loop (E : Externals) (s : AppState) (f : Frame)
    (hr : s.running = true) (hc : s.cap_opened = true) :
    ((update_frame E (some f) s).last_frame = some (process_frame E f).1)
    ∧ ((update_frame E (some f) s).last_results = some (process_frame E f).2)
    ∧ ((update_frame E (some f) s).video_writer =
        (match s.recording, s.video_writer with
          | true, some w =>
              some ({ w with frames := w.frames ++ [(process_frame E f).1] })
          | true, none => none
          | false, _ => s.video_writer))
    ∧ ((update_frame E (some f) s).action_label =
        "Action: " ++ detect_action (process_frame E f).2)
    ∧ ((update_frame E (some f) s).video_label = some (process_frame E f).1)
    ∧ (∀ fn t w', (toggle_recording fn t).video_writer = some w' → w'.frames = [])
    ∧ (∀ fn t, (toggle_recording fn t).last_frame = t.last_frame
        ∧ (toggle_recording fn t).last_results = t.last_results
        ∧ (toggle_recording fn t).action_label = t.action_label)
    ∧ (∀ fn t u, capture_image fn t = .ok u →
        u.last_frame = t.last_frame ∧ u.last_results = t.last_results
        ∧ u.action_label = t.action_label ∧ u.video_writer = t.video_writer
        ∧ u.video_label = t.video_label) := by
  have hmain : ((update_frame E (some f) s).last_frame = some (process_frame E f).1)
      ∧ ((update_frame E (some f) s).last_results = some (process_frame E f).2)
      ∧ ((update_frame E (some f) s).video_writer =
          (match s.recording, s.video_writer with
            | true, some w =>
                some ({ w with frames := w.frames ++ [(process_frame E f).1] })
            | true, none => none
            | false, _ => s.video_writer))
      ∧ ((update_frame E (some f) s).action_label =
          "Action: " ++ detect_action (process_frame E f).2)
      ∧ ((update_frame E (some f) s).video_label = some (process_frame E f).1) := by
    cases hpr : process_frame_run E f with
    | ok p =>
      obtain ⟨img, res⟩ := p
      cases hrec : s.recording with
      | true =>
        cases hw : s.video_writer <;>
          simp [update_frame, process_frame, hr, hc, hrec, hw, hpr]
      | false =>
        cases hpl : res.pose_landmarks <;>
          simp [update_frame, process_frame, hr, hc, hrec, hpr, hpl]
    | error e =>
      cases hrec : s.recording with
      | true =>
        cases hw : s.video_writer <;>
          simp [update_frame, process_frame, hr, hc, hrec, hw, hpr]
      | false =>
        simp [update_frame, process_frame, hr, hc, hrec, hpr]
  have htog_frames : ∀ fn t w',
      (toggle_recording fn t).video_writer = some w' → w'.frames = [] := by
    intro fn t w' hw
    cases hrec : t.recording with
    | false =>
      have hval : (toggle_recording fn t).video_writer =
          some ⟨t.fps, t.frame_width, t.frame_height, []⟩ := by
        simp [toggle_recording, hrec]
      rw [hval] at hw
      injection hw with hw'
      subst hw'
      rfl
    | true =>
      cases hvw : t.video_writer <;>
        simp [toggle_recording, hrec, hvw] at hw
  have htog_keep : ∀ fn t, (toggle_recording fn t).last_frame = t.last_frame
      ∧ (toggle_recording fn t).last_results = t.last_results
      ∧ (toggle_recording fn t).action_label = t.action_label := by
    intro fn t
    cases hrec : t.recording with
    | false => simp [toggle_recording, hrec]
    | true => cases hvw : t.video_writer <;> simp [toggle_recording, hrec, hvw]
  have hcap_keep : ∀ fn t u, capture_image fn t = .ok u →
      u.last_frame = t.last_frame ∧ u.last_results = t.last_results
      ∧ u.action_label = t.action_label ∧ u.video_writer = t.video_writer
      ∧ u.video_label = t.video_label := by
    intro fn t u h
    cases hlr : t.last_results with
    | none =>
      simp only [capture_image, hlr] at h
      cases h
      exact ⟨rfl, rfl, rfl, rfl, rfl⟩
    | some ro =>
      cases ro with
      | none =>
        simp only [capture_image, hlr] at h
        exact Except.noConfusion h
      | some res =>
        cases hpl : res.pose_landmarks with
        | none =>
          simp only [capture_image, hlr, hpl] at h
          cases h
          exact ⟨rfl, rfl, rfl, rfl, rfl⟩
        | some pl =>
          cases hlf : t.last_frame with
          | none =>
            simp only [capture_image, hlr, hpl, hlf] at h
            exact Except.noConfusion h
          | some fr =>
            simp only [capture_image, hlr, hpl, hlf] at h
            cases h
            exact ⟨rfl, rfl, rfl, rfl, rfl⟩
  exact ⟨hmain.1, hmain.2.1, hmain.2.2.1, hmain.2.2.2.1, hmain.2.2.2.2,
    htog_frames, htog_keep, hcap_keep⟩

/-- C7 witness: a concrete non-recording iteration stores the processed
frame. -/
theorem update_frame_single_loop_witness :
    (update_frame okExternals (some ⟨3⟩) baseState).last_frame = some ⟨3⟩ :=
  ((update_frame_single_loop okExternals baseState ⟨3⟩ rfl rfl).1).trans rfl

/-- C8: `capture_image` writes an image file exactly when `last_results`
holds a detection result with pose landmarks (the hypothesis is the
program invariant that `last_frame` is set whenever `last_results` is,
both being assigned together in `update_frame`); on the failing branch no
file is written and nothing but the status label changes, so a snapshot of
a frame without a detected pose is impossible. -/
theorem capture_image_pose_gate (fn : String) (s : AppState)
    (hinv : s.last_results ≠ none → s.last_frame ≠ none) :
    ((∃ t, capture_image fn s = .ok t ∧ t.saved_images ≠ s.saved_images) ↔
      (∃ res, s.last_results = some (some res) ∧ res.pose_landmarks ≠ none))
    ∧ (∀ t, capture_image fn s = .ok t → t.saved_images = s.saved_images →
      t = { s with status_label := t.status_label,
                   status_color := t.status_color }) := by
  have happ : ∀ (l : List (String × Frame)) (x : String × Frame), l ++ [x] ≠ l := by
    intro l x h
    have hlen := congrArg List.length h
    simp at hlen
  cases hlr : s.last_results with
  | none =>
    refine ⟨⟨?_, ?_⟩, ?_⟩
    · rintro ⟨t, ht, hne⟩
      simp only [capture_image, hlr] at ht
      cases ht
      exact absurd rfl hne
    · rintro ⟨res, hres, -⟩
      exact Option.noConfusion hres
    · intro t ht _
      simp only [capture_image, hlr] at ht
      cases ht
      rfl
  | some ro =>
    cases ro with
    | none =>
      refine ⟨⟨?_, ?_⟩, ?_⟩
      · rintro ⟨t, ht, -⟩
        simp only [capture_image, hlr] at ht
        exact Except.noConfusion ht
      · rintro ⟨res, hres, -⟩
        injection hres with hres'
        exact Option.noConfusion hres'
      · intro t ht _
        simp only [capture_image, hlr] at ht
        exact Except.noConfusion ht
    | some res =>
      cases hpl : res.pose_landmarks with
      | none =>
        refine ⟨⟨?_, ?_⟩, ?_⟩
        · rintro ⟨t, ht, hne⟩
          simp only [capture_image, hlr, hpl] at ht
          cases ht
          exact absurd rfl hne
        · rintro ⟨res', hres', hpl'⟩
          obtain rfl : res = res' := by
            injection hres' with h1
            injection h1
          exact absurd hpl hpl'
        · intro t ht _
          simp only [capture_image, hlr, hpl] at ht
          cases ht
          rfl
      | some pl =>
        have hlfne : s.last_frame ≠ none :=
          hinv (by rw [hlr]; exact Option.some_ne_none _)
        obtain ⟨fr, hfr⟩ := Option.ne_none_iff_exists'.mp hlfne
        refine ⟨⟨?_, ?_⟩, ?_⟩
        · intro _
          exact ⟨res, rfl, by rw [hpl]; exact Option.some_ne_none _⟩
        · intro _
          have hok : capture_image fn s = .ok { s with saved_images := s.saved_images ++ [(fn, fr)], status_label := "Saved: " ++ fn, status_color := "green" } := by
            simp only [capture_image, hlr, hpl, hfr]
          exact ⟨_, hok, fun h => happ _ _ h⟩
        · intro t ht hsv
          simp only [capture_image, hlr, hpl, hfr] at ht
          cases ht
          exact absurd hsv (happ _ _)

/-- C8 witness: on a state whose last processed result has pose landmarks,
`capture_image` does write an image file. -/
theorem capture_image_pose_gate_witness :
    ∃ t, capture_image "cap.jpg" capState = .ok t ∧
      t.saved_images ≠ capState.saved_images :=
  (capture_image_pose_gate "cap.jpg" capState
      (fun _ => by simp [capState, baseState])).1.mpr
    ⟨capResults, rfl, by simp [capResults, mkResults]⟩

end PoseVision
